import Mathlib

/-!
Verification of the frequency-monitor dashboard (`src/app.py`) against its
natural-language specification.  The Python program is shallowly embedded:
data frames become lists of records, `None` becomes `Option.none`, raised
exceptions become `Except.error` or explicit error branches, frequencies,
timestamps and delays are rationals, and the Streamlit render calls become
fields of an explicit render-outcome record.
-/

namespace FreqMonitor

/-- One row of a device's sample CSV: columns `time`, `freq`, `freq_filtered`.
Timestamps are modelled as rationals (seconds on some fixed epoch). -/
structure Row where
  time : ℚ
  freq : ℚ
  freq_filtered : ℚ
deriving DecidableEq

/-- A device's sample window: the parsed data frame, one `Row` per CSV row. -/
abbrev SampleWindow := List Row

/-- One row of a device's bounds CSV: columns `min_freq`, `max_freq`,
`timezone` (the optional `y_min`/`y_max` render-range columns play no role in
the claims verified here). -/
structure BoundsRow where
  min_freq : ℚ
  max_freq : ℚ
  timezone : String
deriving DecidableEq

/-- The parsed bounds data frame (possibly empty, as a data frame can be). -/
abbrev BoundsFrame := List BoundsRow

/-- `freq_out_of_bounds = current_freq < min_freq or current_freq > max_freq`
(app.py line 258). -/
def freq_out_of_bounds (current_freq min_freq max_freq : ℚ) : Bool :=
  decide (current_freq < min_freq) || decide (current_freq > max_freq)

/-- `delay_too_large = delay > delay_threshold` (app.py line 259). -/
def delay_too_large (delay delay_threshold : ℚ) : Bool :=
  decide (delay > delay_threshold)

/-- What one device's display region ends up showing after the per-device
loop body (app.py lines 226-285) runs for it. -/
structure DeviceRender where
  metricFreq : Option ℚ
  metricDelay : Option ℚ
  freqAlert : Bool
  delayAlert : Bool
  successBanner : Bool
  audioStarted : Bool
  chartShown : Bool
  inlineError : Bool
  noDataWarning : Bool
deriving DecidableEq

/-- Render outcome when an exception escapes the inner body and is caught by
the per-device handler at app.py line 278: only the inline error is shown. -/
def renderInlineError : DeviceRender :=
  { metricFreq := none, metricDelay := none, freqAlert := false,
    delayAlert := false, successBanner := false, audioStarted := false,
    chartShown := false, inlineError := true, noDataWarning := false }

/-- Render outcome of the no-data branch (app.py lines 280-282). -/
def renderNoData : DeviceRender :=
  { metricFreq := none, metricDelay := none, freqAlert := false,
    delayAlert := false, successBanner := false, audioStarted := false,
    chartShown := false, inlineError := false, noDataWarning := true }

/-- `bounds['timezone'].iloc[0]` and the later `.iloc[0]` lookups (app.py
lines 236, 256-257): subscripting `None` raises `TypeError`, `.iloc[0]` on an
empty frame raises `IndexError`; otherwise the first row is returned. -/
def firstBoundsRow : Option BoundsFrame → Except String BoundsRow
  | none => .error "TypeError"
  | some [] => .error "IndexError"
  | some (b :: _) => .ok b

/-- The guard `bounds is not None and not bounds.empty` (app.py line 255). -/
def boundsGuard : Option BoundsFrame → Bool
  | none => false
  | some bs => !bs.isEmpty

/-- The body of the inner `try` (app.py lines 232-277), entered only when the
sample window is present and non-empty.  Takes the current length of
`audio_elements` and returns the render outcome plus its new length.  Any
exception short-circuits to `renderInlineError` (the handler at line 278)
with the audio list unchanged. -/
def innerTryBody (rows : SampleWindow) (bounds : Option BoundsFrame)
    (delay_threshold now : ℚ) (audioCount : ℕ) : DeviceRender × ℕ :=
  match rows.getLast? with
  | none => (renderInlineError, audioCount)
  | some lastRow =>
    let current_freq := lastRow.freq_filtered
    let last_time := lastRow.time
    match firstBoundsRow bounds with
    | .error _ => (renderInlineError, audioCount)
    | .ok b0 =>
      let delay := now - last_time
      if boundsGuard bounds then
        let oob := freq_out_of_bounds current_freq b0.min_freq b0.max_freq
        let dtl := delay_too_large delay delay_threshold
        if oob || dtl then
          if audioCount = 0 then
            ({ metricFreq := some current_freq, metricDelay := some delay,
               freqAlert := oob, delayAlert := dtl, successBanner := false,
               audioStarted := true, chartShown := true, inlineError := false,
               noDataWarning := false }, audioCount + 1)
          else
            ({ metricFreq := some current_freq, metricDelay := some delay,
               freqAlert := oob, delayAlert := dtl, successBanner := false,
               audioStarted := false, chartShown := true, inlineError := false,
               noDataWarning := false }, audioCount)
        else
          ({ metricFreq := some current_freq, metricDelay := some delay,
             freqAlert := false, delayAlert := false, successBanner := true,
             audioStarted := false, chartShown := true, inlineError := false,
             noDataWarning := false }, audioCount)
      else
        ({ metricFreq := some current_freq, metricDelay := some delay,
           freqAlert := false, delayAlert := false, successBanner := false,
           audioStarted := false, chartShown := true, inlineError := false,
           noDataWarning := false }, audioCount)

/-- One device's turn in the per-device loop (app.py lines 230-282): the
`data is not None and not data.empty` check selects between the inner try
body and the no-data warning. -/
def processDevice (data : Option SampleWindow) (bounds : Option BoundsFrame)
    (delay_threshold now : ℚ) (audioCount : ℕ) : DeviceRender × ℕ :=
  match data with
  | some rows =>
    if rows.isEmpty then (renderNoData, audioCount)
    else innerTryBody rows bounds delay_threshold now audioCount
  | none => (renderNoData, audioCount)

/-- `r.freqAlert || r.delayAlert`: the region shows at least one alert
banner. -/
def hasAlert (r : DeviceRender) : Bool := r.freqAlert || r.delayAlert

/-- A device (given its adapter result) satisfies an alert condition: its
processing reaches the alert branch at app.py line 261. -/
def alerting (d : Option SampleWindow × Option BoundsFrame)
    (delay_threshold now : ℚ) : Bool :=
  hasAlert (processDevice d.1 d.2 delay_threshold now 0).1

/-- The per-device loop (app.py lines 226-285): threads the length of
`audio_elements` through the devices in order, collecting each region's
render outcome. -/
def runDevices (delay_threshold now : ℚ) :
    List (Option SampleWindow × Option BoundsFrame) → ℕ →
    List DeviceRender × ℕ
  | [], a => ([], a)
  | d :: ds, a =>
    let pr := processDevice d.1 d.2 delay_threshold now a
    let rest := runDevices delay_threshold now ds pr.2
    (pr.1 :: rest.1, rest.2)

/-- How many regions started the looping audio cue. -/
def countStarted (rs : List DeviceRender) : ℕ :=
  rs.countP (fun r => r.audioStarted)

/-- Outcome of one full script run (one cycle of the dashboard loop,
app.py lines 218-290). -/
structure CycleRender where
  emptyWarning : Bool
  deviceRenders : List DeviceRender
  sleptAndRerun : Bool
deriving DecidableEq

/-- One cycle: `audio_elements = []`; if no devices were discovered, show the
single warning (app.py lines 219-220) — the `time.sleep`/`st.rerun` pair at
lines 287-290 sits inside the `else` branch, so it runs only in the non-empty
case.  `devices` carries each discovered device's adapter result, in
processing order. -/
def runCycle (devices : List (Option SampleWindow × Option BoundsFrame))
    (delay_threshold now : ℚ) : CycleRender :=
  if devices.isEmpty then
    { emptyWarning := true, deviceRenders := [], sleptAndRerun := false }
  else
    { emptyWarning := false,
      deviceRenders := (runDevices delay_threshold now devices 0).1,
      sleptAndRerun := true }

/-- A file on disk or an object in the store, from the reader's point of
view: missing, or present with the result of parsing it. -/
inductive FileState (α : Type) where
  | absent : FileState α
  | present : Except String α → FileState α

/-- Local-mode `load_data` (app.py lines 89-106).  The data file is read
first: if missing, return `(None, None)` at once (line 93-94, the bounds file
is never consulted); a parse failure anywhere in the `try` is caught at line
104 and yields `(None, None)`; a missing bounds file leaves bounds `None`
(lines 99-101). -/
def load_data_local : FileState SampleWindow → FileState BoundsFrame →
    Option SampleWindow × Option BoundsFrame
  | .absent, _ => (none, none)
  | .present (.error _), _ => (none, none)
  | .present (.ok d), .absent => (some d, none)
  | .present (.ok _), .present (.error _) => (none, none)
  | .present (.ok d), .present (.ok b) => (some d, some b)

/-- The kinds of exception an S3 fetch-and-parse can raise: a `ClientError`
with code `NoSuchKey`, any other `ClientError`, or a non-`ClientError`
exception (for instance a CSV parse failure on the fetched bytes). -/
inductive S3Error where
  | clientNoSuchKey
  | clientOther
  | otherError
deriving DecidableEq

/-- Result of `load_s3_data`: the returned pair plus whether `st.error` was
called by its handlers. -/
structure S3Outcome where
  result : Option SampleWindow × Option BoundsFrame
  errorShown : Bool
deriving DecidableEq

/-- Remote-mode `load_s3_data` (app.py lines 46-82).  `dataRes` is the
combined fetch-and-parse of the sample object, `boundsRes` of the bounds
object.  The inner `try` around the bounds fetch (lines 66-70) catches only
`ClientError`; any other bounds-side exception escapes to the outer
`except Exception` at line 80, which returns `(None, None)`. -/
def load_s3_data (clientOk : Bool) (dataRes : Except S3Error SampleWindow)
    (boundsRes : Except S3Error BoundsFrame) : S3Outcome :=
  if !clientOk then ⟨(none, none), false⟩
  else
    match dataRes with
    | .error .clientNoSuchKey => ⟨(none, none), false⟩
    | .error .clientOther => ⟨(none, none), true⟩
    | .error .otherError => ⟨(none, none), true⟩
    | .ok data =>
      match boundsRes with
      | .ok bounds => ⟨(some data, some bounds), false⟩
      | .error .clientNoSuchKey => ⟨(some data, none), false⟩
      | .error .clientOther => ⟨(some data, none), false⟩
      | .error .otherError => ⟨(none, none), true⟩

/-- Python `str.split` with a one-character separator, over the character
list: `"a__b".split("_") = ["a", "", "b"]`, `"".split("_") = [""]`. -/
def splitOnChar (sep : Char) : List Char → List (List Char)
  | [] => [[]]
  | c :: cs =>
    let rest := splitOnChar sep cs
    if c = sep then [] :: rest
    else
      match rest with
      | [] => [[c]]
      | t :: ts => (c :: t) :: ts

/-- Python `int(s)` restricted to the unsigned decimal tokens that occur in
the filenames at hand: a non-empty all-digit token parses, anything else
raises `ValueError`. -/
def pyInt (s : List Char) : Except String Int :=
  if s ≠ [] ∧ s.all (fun c => c.isDigit) then
    .ok (s.foldl (fun acc c => 10 * acc + (Int.ofNat (c.toNat - 48))) 0)
  else .error "ValueError"

/-- `int(f.split('_')[-1].split('.')[0])` (app.py lines 208 and 216). -/
def parse_device_token (f : String) : Except String Int :=
  pyInt ((splitOnChar '.'
    ((splitOnChar '_' f.toList).getLastD [])).headD [])

/-- The comprehension `[int(f.split('_')[-1].split('.')[0]) for f in
device_files]`: evaluated left to right, the first bad token raises. -/
def parse_device_numbers : List String → Except String (List Int)
  | [] => .ok []
  | f :: fs =>
    match parse_device_token f with
    | .error e => .error e
    | .ok n =>
      match parse_device_numbers fs with
      | .error e => .error e
      | .ok ns => .ok (n :: ns)

/-- Local-mode discovery (app.py lines 215-216): the glob result is mapped
through the comprehension with no surrounding `try` — an error here is an
uncaught exception. -/
def discover_local (device_files : List String) : Except String (List Int) :=
  parse_device_numbers device_files

/-- Remote-mode discovery (app.py lines 199-213): with a working client, the
listing and the comprehension both sit inside one `try`; any fault yields
`st.error` and an empty device list.  Without a client, the list is empty and
no further error is shown here (`get_s3_client` showed its own). -/
def discover_s3 (clientOk : Bool) (listing : Except String (List String)) :
    List Int × Bool :=
  if !clientOk then ([], false)
  else
    match listing with
    | .error _ => ([], true)
    | .ok files =>
      match parse_device_numbers files with
      | .error _ => ([], true)
      | .ok ns => (ns, false)

/-- C2 claim -/
theorem freq_out_of_bounds_iff (v mn mx : ℚ) :
    (freq_out_of_bounds v mn mx = false ↔ mn ≤ v ∧ v ≤ mx) ∧
    (freq_out_of_bounds v mn mx = true ↔ v < mn ∨ v > mx) := by
  constructor
  · simp [freq_out_of_bounds, not_lt, and_comm]
  · simp [freq_out_of_bounds]

/-- C3 claim -/
theorem delay_too_large_iff (d t : ℚ) :
    delay_too_large d t = true ↔ d > t := by
  simp [delay_too_large]

lemma exists_getLast_of_ne_nil {α : Type} {rows : List α} (h : rows ≠ []) :
    ∃ x, rows.getLast? = some x := by
  rw [← Option.isSome_iff_exists, List.getLast?_isSome]
  exact h

lemma isEmpty_false_of_ne_nil {α : Type} {rows : List α} (h : rows ≠ []) :
    rows.isEmpty = false := by
  cases rows with
  | nil => exact absurd rfl h
  | cons r rs => rfl

/-- C1 claim: with a present non-empty sample window and absent bounds, the
per-device body raises at `bounds['timezone'].iloc[0]` (line 236) before any
metric is displayed, so the region shows only the inline error — no metrics,
no alert banner, no audio cue, no chart — and the audio state is unchanged. -/
theorem bounds_absent_inline_error (rows : SampleWindow) (t n : ℚ) (a : ℕ)
    (h : rows ≠ []) :
    processDevice (some rows) none t n a = (renderInlineError, a) ∧
    renderInlineError.metricFreq = none ∧
    renderInlineError.metricDelay = none ∧
    renderInlineError.freqAlert = false ∧
    renderInlineError.delayAlert = false ∧
    renderInlineError.audioStarted = false ∧
    renderInlineError.chartShown = false ∧
    renderInlineError.inlineError = true := by
  obtain ⟨x, hx⟩ := exists_getLast_of_ne_nil h
  refine ⟨?_, rfl, rfl, rfl, rfl, rfl, rfl, rfl⟩
  simp [processDevice, isEmpty_false_of_ne_nil h, innerTryBody, hx,
    firstBoundsRow]

/-- Witness for C1 at a concrete input. -/
theorem bounds_absent_inline_error_witness :
    processDevice (some [⟨0, 100, 98⟩]) none 60 30 0
        = (renderInlineError, 0) ∧
    renderInlineError.metricFreq = none ∧
    renderInlineError.metricDelay = none ∧
    renderInlineError.freqAlert = false ∧
    renderInlineError.delayAlert = false ∧
    renderInlineError.audioStarted = false ∧
    renderInlineError.chartShown = false ∧
    renderInlineError.inlineError = true :=
  bounds_absent_inline_error [⟨0, 100, 98⟩] 60 30 0 (by simp)

/-- C10 claim: with a present non-empty sample window and a present but
zero-row bounds frame, `.iloc[0]` raises at line 236, before the metrics, so
the region shows only the inline error and no metrics, banners or chart. -/
theorem empty_bounds_frame_inline_error (rows : SampleWindow) (t n : ℚ)
    (a : ℕ) (h : rows ≠ []) :
    processDevice (some rows) (some ([] : BoundsFrame)) t n a
        = (renderInlineError, a) ∧
    renderInlineError.metricFreq = none ∧
    renderInlineError.metricDelay = none ∧
    renderInlineError.freqAlert = false ∧
    renderInlineError.delayAlert = false ∧
    renderInlineError.successBanner = false ∧
    renderInlineError.audioStarted = false ∧
    renderInlineError.chartShown = false ∧
    renderInlineError.inlineError = true := by
  obtain ⟨x, hx⟩ := exists_getLast_of_ne_nil h
  refine ⟨?_, rfl, rfl, rfl, rfl, rfl, rfl, rfl, rfl⟩
  simp [processDevice, isEmpty_false_of_ne_nil h, innerTryBody, hx,
    firstBoundsRow]

/-- Witness for C10 at a concrete input. -/
theorem empty_bounds_frame_inline_error_witness :
    processDevice (some [⟨0, 100, 98⟩]) (some ([] : BoundsFrame)) 60 30 0
        = (renderInlineError, 0) ∧
    renderInlineError.metricFreq = none ∧
    renderInlineError.metricDelay = none ∧
    renderInlineError.freqAlert = false ∧
    renderInlineError.delayAlert = false ∧
    renderInlineError.successBanner = false ∧
    renderInlineError.audioStarted = false ∧
    renderInlineError.chartShown = false ∧
    renderInlineError.inlineError = true :=
  empty_bounds_frame_inline_error [⟨0, 100, 98⟩] 60 30 0 (by simp)

/-- C5 counterexample: with an empty device set the cycle shows the warning
but does not reach the sleep-and-restart step. -/
theorem empty_device_set_no_rerun :
    (runCycle [] 60 0).emptyWarning = true ∧
    (runCycle [] 60 0).sleptAndRerun = false := by
  exact ⟨rfl, rfl⟩

/-- C5 amended: the sleep-and-restart step is reached exactly when the
discovered device set is non-empty; with an empty set only the warning is
shown and the run ends. -/
theorem rerun_iff_devices_nonempty
    (devs : List (Option SampleWindow × Option BoundsFrame)) (t n : ℚ) :
    (runCycle devs t n).emptyWarning = devs.isEmpty ∧
    (runCycle devs t n).sleptAndRerun = !devs.isEmpty := by
  cases devs <;> simp [runCycle]

/-- C6 counterexample: data file absent, bounds file present and parseable —
the local adapter returns `None` for the bounds, not the parsed record. -/
theorem absent_data_discards_bounds :
    (load_data_local .absent
        (.present (.ok [⟨90, 110, "UTC"⟩]))).2 = none ∧
    (none : Option BoundsFrame) ≠ some [⟨90, 110, "UTC"⟩] := by
  exact ⟨rfl, by simp⟩

/-- C6 amended: with the data file absent the local adapter returns
`(None, None)` without consulting the bounds file, and the loop then shows
the per-device no-data warning with no banner, no audio and no chart. -/
theorem absent_data_yields_none_none (bf : FileState BoundsFrame)
    (t n : ℚ) (a : ℕ) :
    load_data_local .absent bf = (none, none) ∧
    (processDevice (load_data_local .absent bf).1
        (load_data_local .absent bf).2 t n a).1.noDataWarning = true ∧
    hasAlert (processDevice (load_data_local .absent bf).1
        (load_data_local .absent bf).2 t n a).1 = false ∧
    (processDevice (load_data_local .absent bf).1
        (load_data_local .absent bf).2 t n a).1.audioStarted = false ∧
    (processDevice (load_data_local .absent bf).1
        (load_data_local .absent bf).2 t n a).2 = a := by
  cases bf with
  | absent => simp [load_data_local, processDevice, renderNoData, hasAlert]
  | present e =>
    cases e <;>
      simp [load_data_local, processDevice, renderNoData, hasAlert]

/-- C7 counterexample: a listing that returns device 10's file before device
2's yields the processing order `[10, 2]`, which is not increasing. -/
theorem listing_order_not_sorted :
    discover_local ["recent_data_device_10.csv", "recent_data_device_2.csv"]
        = .ok [10, 2] ∧ ¬ ((10 : ℤ) ≤ 2) := by
  exact ⟨rfl, by decide⟩

/-- C7 amended: discovery maps the listing elementwise in listing order —
the identifier sequence mirrors the file order, with no sorting step. -/
theorem device_numbers_follow_listing_order (fs : List String)
    (ns : List Int) (h : discover_local fs = .ok ns) :
    List.Forall₂ (fun f k => parse_device_token f = .ok k) fs ns := by
  unfold discover_local at h
  induction fs generalizing ns with
  | nil =>
    simp only [parse_device_numbers] at h
    injection h with h
    subst h
    exact List.Forall₂.nil
  | cons f fs ih =>
    cases hf : parse_device_token f with
    | error e => simp [parse_device_numbers, hf] at h
    | ok k =>
      cases hrec : parse_device_numbers fs with
      | error e => simp [parse_device_numbers, hf, hrec] at h
      | ok ks =>
        simp only [parse_device_numbers, hf, hrec] at h
        injection h with h
        subst h
        exact List.Forall₂.cons hf (ih ks hrec)

/-- Witness for C7's amended theorem at a concrete listing. -/
theorem device_numbers_follow_listing_order_witness :
    List.Forall₂ (fun f k => parse_device_token f = .ok k)
      ["recent_data_device_10.csv", "recent_data_device_2.csv"]
      [10, 2] :=
  device_numbers_follow_listing_order
    ["recent_data_device_10.csv", "recent_data_device_2.csv"] [10, 2] rfl

/-- C8 counterexample: a local CSV filename whose device suffix is not a
valid integer makes the comprehension raise, and the raise propagates out of
local discovery uncaught instead of yielding an empty device set. -/
theorem local_discovery_uncaught_error :
    discover_local ["recent_data_device_foo.csv"] = .error "ValueError" ∧
    ∀ ns : List Int,
      discover_local ["recent_data_device_foo.csv"] ≠ .ok ns := by
  refine ⟨rfl, fun ns h => ?_⟩
  rw [show discover_local ["recent_data_device_foo.csv"]
      = .error "ValueError" from rfl] at h
  cases h

/-- C8 amended: only remote-mode discovery converts faults into an empty
device set with a visible error; a local-mode filename-parsing fault
propagates as an uncaught exception. -/
theorem s3_discovery_faults_yield_empty
    (listing : Except String (List String)) (files : List String)
    (e e' : String) (h1 : listing = .error e)
    (h2 : parse_device_numbers files = .error e') :
    discover_s3 true listing = ([], true) ∧
    discover_s3 true (.ok files) = ([], true) ∧
    discover_local files = .error e' := by
  subst h1
  refine ⟨rfl, ?_, h2⟩
  simp [discover_s3, h2]

/-- Witness for C8's amended theorem at concrete inputs. -/
theorem s3_discovery_faults_yield_empty_witness :
    discover_s3 true (.error "AccessDenied") = ([], true) ∧
    discover_s3 true (.ok ["recent_data_device_foo.csv"]) = ([], true) ∧
    discover_local ["recent_data_device_foo.csv"] = .error "ValueError" :=
  s3_discovery_faults_yield_empty (.error "AccessDenied")
    ["recent_data_device_foo.csv"] "AccessDenied" "ValueError" rfl rfl

/-- C9 counterexample: the sample object fetched and parsed fine, but a
non-`ClientError` bounds-side fault (a parse error) escapes the inner
handler, and the outer handler returns `(None, None)`, discarding the
sample. -/
theorem bounds_parse_error_discards_sample :
    load_s3_data true (.ok [⟨0, 100, 98⟩]) (.error .otherError)
        = ⟨(none, none), true⟩ ∧
    (none : Option SampleWindow) ≠ some [⟨0, 100, 98⟩] := by
  exact ⟨rfl, by simp⟩

/-- C9 amended: a bounds-side `ClientError` (not-found or otherwise) indeed
preserves the sample and yields absent bounds, as does a successful bounds
fetch; but a non-`ClientError` bounds-side fault discards the sample. -/
theorem bounds_client_error_preserves_sample (d : SampleWindow)
    (b : BoundsFrame) (e : S3Error) (h : e ≠ S3Error.otherError) :
    load_s3_data true (.ok d) (.error e) = ⟨(some d, none), false⟩ ∧
    load_s3_data true (.ok d) (.ok b) = ⟨(some d, some b), false⟩ ∧
    load_s3_data true (.ok d) (.error .otherError) = ⟨(none, none), true⟩ := by
  cases e with
  | clientNoSuchKey => exact ⟨rfl, rfl, rfl⟩
  | clientOther => exact ⟨rfl, rfl, rfl⟩
  | otherError => exact absurd rfl h

lemma countStarted_cons (r : DeviceRender) (rs : List DeviceRender) :
    countStarted (r :: rs)
        = countStarted rs + (if r.audioStarted then 1 else 0) := by
  simp [countStarted, List.countP_cons]

lemma processDevice_cases (d : Option SampleWindow) (b : Option BoundsFrame)
    (t n : ℚ) (a : ℕ) :
    (processDevice d b t n a).1.audioStarted
        = (hasAlert (processDevice d b t n 0).1 && decide (a = 0)) ∧
    hasAlert (processDevice d b t n a).1
        = hasAlert (processDevice d b t n 0).1 ∧
    (processDevice d b t n a).2
        = (if hasAlert (processDevice d b t n 0).1 && decide (a = 0)
           then 1 else a) := by
  cases d with
  | none => simp [processDevice, renderNoData, hasAlert]
  | some rows =>
    cases he : rows.isEmpty with
    | true => simp [processDevice, he, renderNoData, hasAlert]
    | false =>
      cases hl : rows.getLast? with
      | none =>
        simp [processDevice, he, innerTryBody, hl, renderInlineError,
          hasAlert]
      | some lastRow =>
        cases hb : firstBoundsRow b with
        | error e =>
          simp [processDevice, he, innerTryBody, hl, hb, renderInlineError,
            hasAlert]
        | ok b0 =>
          cases hg : boundsGuard b with
          | false =>
            simp [processDevice, he, innerTryBody, hl, hb, hg, hasAlert]
          | true =>
            cases ho : freq_out_of_bounds lastRow.freq_filtered b0.min_freq
                b0.max_freq || delay_too_large (n - lastRow.time) t with
            | false =>
              simp [processDevice, he, innerTryBody, hl, hb, hg, ho,
                hasAlert]
            | true =>
              by_cases ha : a = 0
              · subst ha
                simp [processDevice, he, innerTryBody, hl, hb, hg, ho,
                  hasAlert]
              · simp [processDevice, he, innerTryBody, hl, hb, hg, ho, ha,
                  hasAlert]

lemma runDevices_pos (t n : ℚ)
    (devs : List (Option SampleWindow × Option BoundsFrame)) :
    ∀ a : ℕ, a ≠ 0 →
      countStarted (runDevices t n devs a).1 = 0 ∧
      (runDevices t n devs a).2 = a := by
  induction devs with
  | nil => intro a _; simp [runDevices, countStarted]
  | cons d ds ih =>
    intro a ha
    obtain ⟨h1, h2, h3⟩ := processDevice_cases d.1 d.2 t n a
    simp [ha] at h1 h3
    obtain ⟨hc, hs⟩ := ih a ha
    constructor
    · simp [runDevices, countStarted_cons, h1, h3, hc]
    · simp [runDevices, h3, hs]

lemma runDevices_zero (t n : ℚ)
    (devs : List (Option SampleWindow × Option BoundsFrame)) :
    countStarted (runDevices t n devs 0).1
        = (if devs.any (fun d => alerting d t n) then 1 else 0) ∧
    (runDevices t n devs 0).2
        = (if devs.any (fun d => alerting d t n) then 1 else 0) ∧
    (runDevices t n devs 0).1.findIdx (fun r => r.audioStarted)
        = (runDevices t n devs 0).1.findIdx (fun r => hasAlert r) := by
  induction devs with
  | nil => simp [runDevices, countStarted]
  | cons d ds ih =>
    obtain ⟨h1, h2, h3⟩ := processDevice_cases d.1 d.2 t n 0
    obtain ⟨ihc, ihs, ihf⟩ := ih
    cases hd : alerting d t n with
    | true =>
      have hd' : hasAlert (processDevice d.1 d.2 t n 0).1 = true := hd
      obtain ⟨pc, ps⟩ := runDevices_pos t n ds 1 one_ne_zero
      rw [List.any_cons]
      simp only [hd, Bool.true_or]
      simp [runDevices, countStarted_cons, List.findIdx_cons, h1, h3, hd',
        pc, ps]
    | false =>
      have hd' : hasAlert (processDevice d.1 d.2 t n 0).1 = false := hd
      rw [List.any_cons]
      simp only [hd, Bool.false_or]
      simp [runDevices, countStarted_cons, List.findIdx_cons, h1, h3, hd',
        ihc, ihs, ihf]

/-- C4 claim: in a cycle where at least one device satisfies an alert
condition, the looping audio cue is started exactly once, and the region
that starts it is the first alerting region. -/
theorem audio_cue_starts_once
    (devs : List (Option SampleWindow × Option BoundsFrame)) (t n : ℚ)
    (h : ∃ d ∈ devs, alerting d t n = true) :
    countStarted (runDevices t n devs 0).1 = 1 ∧
    (runDevices t n devs 0).1.findIdx (fun r => r.audioStarted)
        = (runDevices t n devs 0).1.findIdx (fun r => hasAlert r) := by
  obtain ⟨hc, hs, hf⟩ := runDevices_zero t n devs
  have hany : devs.any (fun d => alerting d t n) = true :=
    List.any_eq_true.mpr h
  rw [hany] at hc
  exact ⟨by simpa using hc, hf⟩

/-- Witness for C4 with two simultaneously alerting devices. -/
theorem audio_cue_starts_once_witness :
    countStarted (runDevices 60 30
        [(some [⟨0, 100, 200⟩], some [⟨90, 110, "UTC"⟩]),
         (some [⟨0, 100, 200⟩], some [⟨90, 110, "UTC"⟩])] 0).1 = 1 ∧
    (runDevices 60 30
        [(some [⟨0, 100, 200⟩], some [⟨90, 110, "UTC"⟩]),
         (some [⟨0, 100, 200⟩], some [⟨90, 110, "UTC"⟩])] 0).1.findIdx
        (fun r => r.audioStarted)
      = (runDevices 60 30
        [(some [⟨0, 100, 200⟩], some [⟨90, 110, "UTC"⟩]),
         (some [⟨0, 100, 200⟩], some [⟨90, 110, "UTC"⟩])] 0).1.findIdx
        (fun r => hasAlert r) :=
  audio_cue_starts_once
    [(some [⟨0, 100, 200⟩], some [⟨90, 110, "UTC"⟩]),
     (some [⟨0, 100, 200⟩], some [⟨90, 110, "UTC"⟩])] 60 30
    ⟨(some [⟨0, 100, 200⟩], some [⟨90, 110, "UTC"⟩]),
      List.mem_cons_self _ _, rfl⟩

/-- Witness for C9's amended theorem at concrete inputs. -/
theorem bounds_client_error_preserves_sample_witness :
    load_s3_data true (.ok [⟨0, 100, 98⟩]) (.error .clientNoSuchKey)
        = ⟨(some [⟨0, 100, 98⟩], none), false⟩ ∧
    load_s3_data true (.ok [⟨0, 100, 98⟩]) (.ok [⟨90, 110, "UTC"⟩])
        = ⟨(some [⟨0, 100, 98⟩], some [⟨90, 110, "UTC"⟩]), false⟩ ∧
    load_s3_data true (.ok [⟨0, 100, 98⟩]) (.error .otherError)
        = ⟨(none, none), true⟩ :=
  bounds_client_error_preserves_sample [⟨0, 100, 98⟩] [⟨90, 110, "UTC"⟩]
    .clientNoSuchKey (by simp)

end FreqMonitor
